import Mathlib

/-!
Shallow embedding of the openSenseMap measurement export and ingestion
controller (`src/lib/controllers/boxesController.js`), covering the
multi-box export (`getDataMulti`), the single-sensor export (`getData`),
the ingestion handlers (`postNewMeasurement`, `postNewMeasurements`) and
the single-box geojson view (`findBox`).

JavaScript objects flowing through the export pipeline are modelled as
association lists from string keys to a small JS-value type; JavaScript
truthiness is modelled explicitly, since the row transform at line 416
branches on `!data[col]` (truthiness), not on key presence.  Helpers that
live outside `src/` (the `utils` time parsing, the csv serializer) are
modelled from the spec and marked as such in their doc comments.
-/

set_option autoImplicit false

namespace OSeM

/-- JavaScript values appearing on export rows and sidecar entries:
`undef` models both an absent property and an explicit `undefined`,
`date` models a BSON/JS `Date` carrying epoch milliseconds. -/
inductive JVal where
  | undef
  | null
  | str (s : String)
  | num (n : Int)
  | date (t : Int)
deriving DecidableEq

/-- JavaScript truthiness: `undefined`, `null`, the empty string and the
number 0 are falsy; `Date` objects are always truthy. -/
def JVal.truthy : JVal → Bool
  | .undef => false
  | .null => false
  | .str s => s ≠ ""
  | .num n => n ≠ 0
  | .date _ => true

/-- JavaScript property-key conversion, used when a `JVal` indexes an
object (`sensors[data.sensor_id]` in the transform at line 417). -/
def JVal.toKey : JVal → String
  | .undef => "undefined"
  | .null => "null"
  | .str s => s
  | .num n => toString n
  | .date t => toString t

/-- A row / plain JS object: an association list from property names to
values.  The first binding for a key wins, mirroring object semantics. -/
abbrev Row := List (String × JVal)

/-- Property read `row[c]`: the first binding for `c`, `undefined` when
the key is absent. -/
def rowGet : Row → String → JVal
  | [], _ => .undef
  | (k, v) :: rest, c => if k = c then v else rowGet rest c

/-- Drop every binding for key `c` from a string-keyed list. -/
def eraseKey {α : Type} : List (String × α) → String → List (String × α)
  | [], _ => []
  | (k, v) :: rest, c =>
    if k = c then eraseKey rest c else (k, v) :: eraseKey rest c

/-- Property write `row[c] = v`: overwrites any previous binding. -/
def rowSet (row : Row) (c : String) (v : JVal) : Row :=
  (c, v) :: eraseKey row c

/-- Key presence (`c in row`), as opposed to truthiness of the value. -/
def rowHas : Row → String → Bool
  | [], _ => false
  | (k, _) :: rest, c => k == c || rowHas rest c

/-- Lookup in a string-keyed JS object holding rows (the sidecar). -/
def objLookup : List (String × Row) → String → Option Row
  | [], _ => none
  | (k, v) :: rest, c => if k = c then some v else objLookup rest c

/-- Object write for the sidecar (`sensors[key] = sensor`, line 406). -/
def objSet (obj : List (String × Row)) (k : String) (v : Row) : List (String × Row) :=
  (k, v) :: eraseKey obj k

/-- `Object.keys(sensors)` (line 434): the keys of the sidecar. -/
def sensorKeys (sensors : List (String × Row)) : List String :=
  sensors.map Prod.fst

/-! ### The multi-box export row transform (lines 412-422)

```text
data.createdAt = utils.parseTimestamp(data.createdAt).toISOString();
for (const col of columns) {
  if (!data[col]) {
    data[col] = sensors[data.sensor_id][col];
  }
}
```
Indexing `sensors[data.sensor_id]` when the sidecar has no entry yields
`undefined`, and the subsequent `[col]` access throws a `TypeError`,
which the stream-transform surfaces through its error handler
(lines 424-429); we model the throw as an `Except.error`. -/

/-- The error surfaced when the sidecar has no entry for the sensor
identity of the row and a column fill is attempted. -/
def sidecarMissingMsg : String :=
  "TypeError: cannot read property of undefined"

/-- One iteration of the fill loop for column `col` (lines 415-419). -/
def fillStep (sensors : List (String × Row)) (d : Row) (col : String) :
    Except String Row :=
  if (rowGet d col).truthy then .ok d
  else
    match objLookup sensors (rowGet d "sensor_id").toKey with
    | some entry => .ok (rowSet d col (rowGet entry col))
    | none => .error sidecarMissingMsg

/-- The fill loop over the requested columns (lines 415-419). -/
def fillColumns (sensors : List (String × Row)) :
    List String → Row → Except String Row
  | [], d => .ok d
  | col :: rest, d =>
    match fillStep sensors d col with
    | .ok d2 => fillColumns sensors rest d2
    | .error e => .error e

/-- The whole per-row transform of `getDataMulti` (lines 412-422):
normalize `createdAt` to ISO-8601 text, then fill the requested columns
from the sidecar.  `iso` abstracts `utils.parseTimestamp(x).toISOString()`
(in `utils`, outside `src/`); it always produces a string. -/
def multiRowTransform (iso : JVal → String) (sensors : List (String × Row))
    (columns : List String) (data : Row) : Except String Row :=
  fillColumns sensors columns
    (rowSet data "createdAt" (.str (iso (rowGet data "createdAt"))))

/-- The per-row transform of the single-sensor export `getData`
(lines 239-243): only the timestamp normalization, no sidecar. -/
def singleRowTransform (iso : JVal → String) (data : Row) : Row :=
  rowSet data "createdAt" (.str (iso (rowGet data "createdAt")))

/-! ### String helpers

Executable models of the JavaScript string operations the controller
uses (`split(',')`, `trim()`, `toLowerCase()`), written over character
lists so that they evaluate inside the kernel. -/

/-- Auxiliary worker for `jsSplitComma`; `acc` holds the current field
reversed. -/
def splitCommaAux : List Char → List Char → List String
  | [], acc => [String.mk acc.reverse]
  | c :: rest, acc =>
    if c = ',' then String.mk acc.reverse :: splitCommaAux rest []
    else splitCommaAux rest (c :: acc)

/-- JavaScript `s.split(',')`: always at least one field, empty input
gives a single empty field. -/
def jsSplitComma (s : String) : List String :=
  splitCommaAux s.data []

/-- JavaScript `s.trim()`: strip leading and trailing whitespace. -/
def jsTrim (s : String) : String :=
  String.mk
    (((s.data.dropWhile Char.isWhitespace).reverse.dropWhile
        Char.isWhitespace).reverse)

/-- JavaScript `s.toLowerCase()` (restricted to ASCII case folding). -/
def jsToLower (s : String) : String :=
  String.mk (s.data.map Char.toLower)

/-! ### Errors

The restify error constructors the controller returns through
`next(...)`. -/

/-- The errors surfaced by the controller. -/
inductive RestError where
  | badRequest (msg : String)
  | unprocessableEntity (msg : String)
  | invalidArgument (msg : String)
  | internalServer (msg : String)
  | notFound (msg : String)
  | unsupportedMediaType (msg : String)
deriving DecidableEq

/-! ### Time-window resolution (lines 213-230 and 307-324)

`utils.parseTimeParameter` and `utils.validateTimeParameters` live in
`lib/utils.js`, which is not under `src/`; they are modelled from the
spec.  The per-call-site defaults (`moment()` / `moment().utc()` for
`to-date`, `to-date minus 48 hours` resp. `minus 15 days` for
`from-date`) are taken from the source (lines 215, 221, 309, 315). -/

/-- 48 hours in milliseconds, the `getData` default window length. -/
def HOURS_48_MS : Int := 172800000

/-- 15 days in milliseconds, the `getDataMulti` default window length. -/
def DAYS_15_MS : Int := 1296000000

/-- Modelled from the spec: `utils.parseTimeParameter` (in `lib/utils`,
not under `src/`) returns the call-site default when the parameter is
absent, otherwise parses it; an unparseable bound is an error.
`parseTs` abstracts the moment.js timestamp parser. -/
def parseTimeParameter (parseTs : String → Option Int)
    (param : Option String) (defaultMoment : Int) : Except RestError Int :=
  match param with
  | none => .ok defaultMoment
  | some s =>
    match parseTs s with
    | some t => .ok t
    | none => .error (.unprocessableEntity "Invalid date format")

/-- The message of the inverted-window error. -/
def timeFrameMsg : String := "Invalid time frame specified"

/-- Modelled from the spec: `utils.validateTimeParameters` (in
`lib/utils`, not under `src/`) — resolution fails whenever `from` is
not strictly before `to`, and never clamps. -/
def validateTimeParameters (toDate fromDate : Int) : Option RestError :=
  if fromDate < toDate then none else some (.invalidArgument timeFrameMsg)

/-- The time-window resolution sequence shared by both exports
(lines 213-230 and 307-324): parse `to-date` with default `now`, parse
`from-date` with default `toDate - deltaMs`, then validate. -/
def resolveWindow (parseTs : String → Option Int) (now deltaMs : Int)
    (toParam fromParam : Option String) : Except RestError (Int × Int) :=
  match parseTimeParameter parseTs toParam now with
  | .error e => .error e
  | .ok toDate =>
    match parseTimeParameter parseTs fromParam (toDate - deltaMs) with
    | .error e => .error e
    | .ok fromDate =>
      match validateTimeParameters toDate fromDate with
      | some e => .error e
      | none => .ok (fromDate, toDate)

/-! ### getDataMulti request validation (lines 304-385) -/

/-- The request parameters `getDataMulti` consumes.  `boxId` and `bbox`
are attached to the request by upstream middleware; `bbox` arrives
already parsed into four numbers. -/
structure MultiRequest where
  toDateParam : Option String
  fromDateParam : Option String
  columnsParam : Option String
  phenomenon : Option String
  boxId : Option String
  bbox : Option (Int × Int × Int × Int)
  exposure : Option String
deriving DecidableEq

/-- Line 304. -/
def GET_DATA_MULTI_DEFAULT_COLUMNS : List String :=
  ["createdAt", "value", "lat", "lng"]

/-- Line 305. -/
def GET_DATA_MULTI_ALLOWED_COLUMNS : List String :=
  ["createdAt", "value", "lat", "lng", "unit", "boxId", "sensorId",
   "phenomenon", "sensorType", "boxName", "exposure"]

/-- The columns-parameter handling (lines 328-335): default when absent
or blank, otherwise split on commas and reject the whole request when
any requested column is outside the allow-list. -/
def resolveColumns (req : MultiRequest) : Except RestError (List String) :=
  match req.columnsParam with
  | none => .ok GET_DATA_MULTI_DEFAULT_COLUMNS
  | some s =>
    if jsTrim s = "" then .ok GET_DATA_MULTI_DEFAULT_COLUMNS
    else
      let cs := jsSplitComma s
      if cs.any (fun c => !(GET_DATA_MULTI_ALLOWED_COLUMNS.contains c)) then
        .error (.unprocessableEntity "illegal columns parameter")
      else .ok cs

/-- The phenomenon check (lines 339-345): required, truthy, non-blank. -/
def resolvePhenomenon (req : MultiRequest) : Except RestError String :=
  match req.phenomenon with
  | some p =>
    if p != "" && jsTrim p != "" then .ok (jsTrim p)
    else .error (.badRequest "invalid phenomenon parameter")
  | none => .error (.badRequest "invalid phenomenon parameter")

/-- The box selection of the query predicate: explicit id list or the
closed five-point bounding-box polygon of lines 362-368. -/
inductive BoxSelector where
  | byIds (ids : List String)
  | byBBox (polygon : List (Int × Int))
deriving DecidableEq

/-- JavaScript truthiness of `req.boxId` (a string or absent). -/
def boxIdTruthy : Option String → Bool
  | some s => s != ""
  | none => false

/-- The boxId/bbox exclusivity check and selector construction
(lines 347-375): both present is an error, neither present is an
error, otherwise build the id-list or polygon predicate. -/
def resolveSelector (req : MultiRequest) : Except RestError BoxSelector :=
  if boxIdTruthy req.boxId && req.bbox.isSome then
    .error (.badRequest "please specify only boxId or bbox")
  else if boxIdTruthy req.boxId then
    .ok (.byIds (jsSplitComma (match req.boxId with
      | some s => s
      | none => "")))
  else
    match req.bbox with
    | some (b0, b1, b2, b3) =>
      .ok (.byBBox [(b0, b1), (b0, b3), (b2, b3), (b2, b1), (b0, b1)])
    | none => .error (.badRequest "please specify either boxId or bbox")

/-- The exposure check (lines 378-385): optional, but when truthy it
must trim to exactly `indoor` or `outdoor`. -/
def resolveExposure (req : MultiRequest) : Except RestError (Option String) :=
  match req.exposure with
  | none => .ok none
  | some e =>
    if e != "" then
      if jsTrim e = "indoor" || jsTrim e = "outdoor" then .ok (some (jsTrim e))
      else .error (.unprocessableEntity "exposure column should be indoor or outdoor")
    else .ok none

/-- Everything `getDataMulti` has established once validation passed and
before it touches storage. -/
structure MultiQuery where
  fromDate : Int
  toDate : Int
  columns : List String
  phenomenon : String
  selector : BoxSelector
  exposure : Option String
deriving DecidableEq

/-- The whole validation phase of `getDataMulti` (lines 307-385), in
source order: time window, columns, phenomenon, boxId/bbox, exposure.
An error result models `return next(error)` being executed before the
`Box.find` call of line 387. -/
def getDataMultiPrepare (parseTs : String → Option Int) (now : Int)
    (req : MultiRequest) : Except RestError MultiQuery :=
  match resolveWindow parseTs now DAYS_15_MS req.toDateParam req.fromDateParam with
  | .error e => .error e
  | .ok (fromDate, toDate) =>
    match resolveColumns req with
    | .error e => .error e
    | .ok columns =>
      match resolvePhenomenon req with
      | .error e => .error e
      | .ok phen =>
        match resolveSelector req with
        | .error e => .error e
        | .ok sel =>
          match resolveExposure req with
          | .error e => .error e
          | .ok expo => .ok ⟨fromDate, toDate, columns, phen, sel, expo⟩

/-- The storage operations the controller can issue. -/
inductive StorageAction where
  | boxFind (phenomenon : String) (selector : BoxSelector) (exposure : Option String)
  | measurementFind (sensorIds : List String) (fromDate toDate : Int)
  | boxFindOne (boxId : String)
  | saveMeasurementsArray (boxId : String)
  | saveMeasurement (boxId : String)
deriving DecidableEq

/-- The storage reads `getDataMulti` performs, as gated by validation:
nothing on a validation error, otherwise the `Box.find` of line 387.
(The `Measurement.find` of line 432 runs strictly after `Box.find`
resolves, so an empty trace here means no storage read at all.) -/
def getDataMultiStorageReads (parseTs : String → Option Int) (now : Int)
    (req : MultiRequest) : List StorageAction :=
  match getDataMultiPrepare parseTs now req with
  | .error _ => []
  | .ok q => [.boxFind q.phenomenon q.selector q.exposure]

/-! ### getData request validation (lines 213-287) -/

/-- The request parameters `getData` consumes. -/
structure SingleRequest where
  sensorId : String
  toDateParam : Option String
  fromDateParam : Option String
  format : Option String
deriving DecidableEq

/-- Modelled from the spec: `requestUtils.getRequestedFormat` (in
`lib/requestUtils`, not under `src/`) — the default when the parameter
is absent, undefined when the requested format is not allowed. -/
def getRequestedFormat (param : Option String) (allowed : List String)
    (dflt : String) : Option String :=
  match param with
  | none => some dflt
  | some f => if allowed.contains f then some f else none

/-- Everything `getData` has established before its query executes. -/
structure SingleQuery where
  sensorId : String
  fromDate : Int
  toDate : Int
  format : String
deriving DecidableEq

/-- The validation phase of `getData` (lines 213-235): time window with
the 48-hour default, then format.  An error result models
`return next(error)` before the `Measurement.find` of line 280. -/
def getDataPrepare (parseTs : String → Option Int) (now : Int)
    (req : SingleRequest) : Except RestError SingleQuery :=
  match resolveWindow parseTs now HOURS_48_MS req.toDateParam req.fromDateParam with
  | .error e => .error e
  | .ok (fromDate, toDate) =>
    match getRequestedFormat req.format ["json", "csv"] "json" with
    | none => .error (.invalidArgument "Invalid format")
    | some fmt => .ok ⟨req.sensorId, fromDate, toDate, fmt⟩

/-- The storage reads `getData` performs: nothing on a validation
error, otherwise the `Measurement.find` of lines 275-283. -/
def getDataStorageReads (parseTs : String → Option Int) (now : Int)
    (req : SingleRequest) : List StorageAction :=
  match getDataPrepare parseTs now req with
  | .error _ => []
  | .ok q => [.measurementFind [q.sensorId] q.fromDate q.toDate]

/-! ### Cursor predicates

The `Measurement.find` filters of the two exports, as predicates on a
stored row. -/

/-- The `createdAt` filter of `getData` (line 277): inclusive
`gte`/`lte` bounds. -/
def singleTimeWindow (fromDate toDate t : Int) : Bool :=
  decide (fromDate ≤ t) && decide (t ≤ toDate)

/-- The `createdAt` filter of `getDataMulti` (lines 436-439): strict
`gt`/`lt` bounds. -/
def multiTimeWindow (fromDate toDate t : Int) : Bool :=
  decide (fromDate < t) && decide (t < toDate)

/-- The full `getData` cursor predicate (lines 275-278): exact
`sensor_id` match and the inclusive time window. -/
def matchesSingleCursor (sensorId : String) (fromDate toDate : Int)
    (row : Row) : Bool :=
  (match rowGet row "sensor_id" with
   | .str s => s == sensorId
   | _ => false) &&
  (match rowGet row "createdAt" with
   | .date t => singleTimeWindow fromDate toDate t
   | _ => false)

/-- The full `getDataMulti` cursor predicate (lines 432-440):
`sensor_id` within the given id list and the strict time window. -/
def matchesMultiCursor (sensorIds : List String) (fromDate toDate : Int)
    (row : Row) : Bool :=
  (match rowGet row "sensor_id" with
   | .str s => sensorIds.contains s
   | _ => false) &&
  (match rowGet row "createdAt" with
   | .date t => multiTimeWindow fromDate toDate t
   | _ => false)

/-! ### The metadata sidecar builder (lines 387-409) -/

/-- A sensor subdocument of a box, with the fields the builder reads. -/
structure SensorDoc where
  _id : String
  title : String
  unit : String
  sensorType : String
deriving DecidableEq

/-- A box document, with the fields the builder reads; `coordinates`
is `loc[0].geometry.coordinates`, a `[first, second]` pair. -/
structure BoxDoc where
  _id : String
  name : String
  exposure : String
  coordinates : Int × Int
  sensors : List SensorDoc
deriving DecidableEq

/-- One sidecar entry (lines 396-406): the sensor object extended in
place; note line 398 takes `lat` from `coordinates[0]` and line 399
takes `lng` from `coordinates[1]`. -/
def sidecarEntry (b : BoxDoc) (s : SensorDoc) : Row :=
  [("_id", .str s._id), ("title", .str s.title), ("unit", .str s.unit),
   ("sensorType", .str s.sensorType),
   ("lat", .num b.coordinates.1), ("lng", .num b.coordinates.2),
   ("boxId", .str b._id), ("boxName", .str b.name),
   ("exposure", .str b.exposure), ("sensorId", .str s._id),
   ("phenomenon", .str s.title)]

/-- The sidecar builder (lines 391-409): for every sensor of every
selected box whose title equals the requested phenomenon, emit an
entry keyed by the sensor id. -/
def buildSidecar (phenomenon : String) (boxData : List BoxDoc) :
    List (String × Row) :=
  boxData.foldl (fun acc b =>
    b.sensors.foldl (fun acc2 s =>
      if s.title = phenomenon then objSet acc2 s._id (sidecarEntry b s)
      else acc2) acc) []

/-- The single-box geojson representation built by `findBox`
(lines 854-862): `lat` is taken from `coordinates[1]` and `lng` from
`coordinates[0]`. -/
def findBoxGeojson (b : BoxDoc) : Row :=
  [("name", .str b.name), ("exposure", .str b.exposure),
   ("lat", .num b.coordinates.2), ("lng", .num b.coordinates.1)]

/-! ### CSV serialization and the export pipelines -/

/-- Field rendering for CSV cells; `undefined` and `null` render
empty. -/
def jvalToField : JVal → String
  | .undef => ""
  | .null => ""
  | .str s => s
  | .num n => toString n
  | .date t => toString t

/-- Modelled from the spec: the `csv-stringify` serializer configured
with `columns` and `header: 1` (an external library, not under
`src/`) — a header row of the column names followed by one line per
record, fields in the configured column order, joined by the
delimiter. -/
def csvLines (delim : String) (columns : List String) (rows : List Row) :
    List String :=
  String.intercalate delim columns ::
    rows.map (fun r =>
      String.intercalate delim (columns.map (fun c => jvalToField (rowGet r c))))

/-- Running the `getDataMulti` row transform over a whole cursor
result; any row error aborts the pipeline. -/
def transformRows (iso : JVal → String) (sensors : List (String × Row))
    (columns : List String) : List Row → Except String (List Row)
  | [] => .ok []
  | r :: rest =>
    match multiRowTransform iso sensors columns r with
    | .error e => .error e
    | .ok r2 =>
      match transformRows iso sensors columns rest with
      | .error e => .error e
      | .ok rest2 => .ok (r2 :: rest2)

/-- The `getDataMulti` CSV output (lines 411-445) on a cursor result:
transform every row, then serialize. -/
def multiExportLines (iso : JVal → String) (delim : String)
    (sensors : List (String × Row)) (columns : List String)
    (rows : List Row) : Except String (List String) :=
  match transformRows iso sensors columns rows with
  | .error e => .error e
  | .ok rows2 => .ok (csvLines delim columns rows2)

/-- The `getData` CSV output (lines 239-254, 280-286) on a cursor
result: the fixed `createdAt, value` column pair. -/
def singleExportLines (iso : JVal → String) (delim : String)
    (rows : List Row) : List String :=
  csvLines delim ["createdAt", "value"] (rows.map (singleRowTransform iso))

/-! ### Ingestion (lines 466-496 and 537-570)

The decoders themselves live in `lib/decoding`, outside `src/`; the
handlers below are parametric in the decode function, which is all the
control-flow claims need. -/

/-- A decoded measurement record as handed to the decoders. -/
structure RawMeasurement where
  sensor_id : String
  value : Option String
  createdAt : Option String
deriving DecidableEq

/-- The outcome of an ingestion request. -/
inductive IngestOutcome where
  | created (code : Nat) (msg : String)
  | rejected (e : RestError)
deriving DecidableEq

/-- `postNewMeasurements` (lines 537-570): pick the decoder by
lowercased content type, decode the whole body, and only then look up
the box and save.  A decode throw is answered with
`UnprocessableEntity` before any storage interaction. -/
def postNewMeasurements {β : Type}
    (handlers : String → Option (β → Except String (List RawMeasurement)))
    (findBoxById : String → Bool) (contentType : String)
    (pathParts : List String) (body : β) :
    IngestOutcome × List StorageAction :=
  let boxId := pathParts.getD 2 ""
  match handlers (jsToLower contentType) with
  | none => (.rejected (.unsupportedMediaType "Unsupported content-type."), [])
  | some handler =>
    match handler body with
    | .error e => (.rejected (.unprocessableEntity e), [])
    | .ok _ =>
      if findBoxById boxId then
        (.created 201 "Measurements saved in box",
         [.boxFindOne boxId, .saveMeasurementsArray boxId])
      else
        (.rejected (.notFound "no senseBox found"), [.boxFindOne boxId])

/-- `postNewMeasurement` (lines 466-496): wrap the single reading,
decode it with the json handler, and only then look up the box and
save. -/
def postNewMeasurement
    (jsonDecode : List RawMeasurement → Except String (List RawMeasurement))
    (findBoxById : String → Bool) (boxId sensorId : String)
    (value createdAt : Option String) :
    IngestOutcome × List StorageAction :=
  match jsonDecode [⟨sensorId, value, createdAt⟩] with
  | .error e => (.rejected (.unprocessableEntity e), [])
  | .ok _ =>
    if findBoxById boxId then
      (.created 201 "Measurement saved in box",
       [.boxFindOne boxId, .saveMeasurement boxId])
    else
      (.rejected (.notFound "no senseBox found"), [.boxFindOne boxId])

/-! ### Concrete fixtures

Concrete decoded documents, requests and rows used by the witnesses and
counterexamples below. -/

/-- A fixed ISO-8601 rendering standing in for
`utils.parseTimestamp(x).toISOString()` on the fixture rows. -/
def isoFixed : JVal → String := fun _ => "2020-01-01T00:00:00.000Z"

/-- Fixture box for C1: one sensor measuring Temperatur. -/
def c1Box : BoxDoc :=
  ⟨"b1", "Box 1", "outdoor", (7, 51), [⟨"s1", "Temperatur", "C", "HDC1008"⟩]⟩

/-- Fixture sidecar for C1. -/
def c1Sidecar : List (String × Row) := buildSidecar "Temperatur" [c1Box]

/-- Fixture raw cursor row for C1 whose `value` column is present but
holds the empty string (falsy). -/
def c1RawRow : Row :=
  [("sensor_id", JVal.str "s1"), ("createdAt", JVal.date 0),
   ("value", JVal.str "")]

/-- The transform output on `c1RawRow`. -/
def c1OutRow : Row :=
  [("lng", JVal.num 51), ("lat", JVal.num 7), ("value", JVal.undef),
   ("createdAt", JVal.str "2020-01-01T00:00:00.000Z"),
   ("sensor_id", JVal.str "s1")]

/-- Fixture raw cursor row for the C1 witness, with a truthy `value`. -/
def c1WitnessRow : Row :=
  [("sensor_id", JVal.str "s1"), ("createdAt", JVal.date 0),
   ("value", JVal.str "23.5")]

/-- The transform output on `c1WitnessRow`. -/
def c1WitnessOut : Row :=
  [("lng", JVal.num 51), ("lat", JVal.num 7),
   ("createdAt", JVal.str "2020-01-01T00:00:00.000Z"),
   ("sensor_id", JVal.str "s1"), ("value", JVal.str "23.5")]

/-- Fixture request for C2 whose column set asks only for the two
measurement-intrinsic columns. -/
def c2req : MultiRequest :=
  ⟨none, none, some "createdAt,value", some "Temperatur", some "b1",
   none, none⟩

/-- Fixture cursor row for C2 whose sensor identity has no sidecar
entry. -/
def c2row : Row :=
  [("sensor_id", JVal.str "s1"), ("createdAt", JVal.date 5),
   ("value", JVal.str "5")]

/-- The transform output on `c2row` under the empty sidecar. -/
def c2OutRow : Row :=
  [("createdAt", JVal.str "2020-01-01T00:00:00.000Z"),
   ("sensor_id", JVal.str "s1"), ("value", JVal.str "5")]

/-- Fixture box for the C2 witness. -/
def c2wBox : BoxDoc :=
  ⟨"b2", "Box 2", "indoor", (8, 52), [⟨"s9", "Temperatur", "C", "SHT31"⟩]⟩

/-- Fixture sidecar for the C2 witness. -/
def c2wSidecar : List (String × Row) := buildSidecar "Temperatur" [c2wBox]

/-- Fixture cursor row for the C2 witness. -/
def c2wRow : Row :=
  [("sensor_id", JVal.str "s9"), ("createdAt", JVal.date 7)]

/-- Fixture request for C3 with a column outside the allow-list. -/
def c3req : MultiRequest :=
  ⟨none, none, some "createdAt,foo", some "Temperatur", some "b1",
   none, none⟩

/-- Fixture request for C3 without a columns parameter. -/
def c3dreq : MultiRequest :=
  ⟨none, none, none, some "Temperatur", some "b1", none, none⟩

/-- The prepared query for `c3dreq` at `now = 10`. -/
def c3dquery : MultiQuery :=
  ⟨10 - DAYS_15_MS, 10, GET_DATA_MULTI_DEFAULT_COLUMNS, "Temperatur",
   .byIds ["b1"], none⟩

/-- Fixture request for C4 providing both boxId and bbox. -/
def c4bothReq : MultiRequest :=
  ⟨none, none, none, some "Temperatur", some "b1", some (1, 2, 3, 4), none⟩

/-- Fixture request for C4 providing neither boxId nor bbox. -/
def c4neitherReq : MultiRequest :=
  ⟨none, none, none, some "Temperatur", none, none, none⟩

/-- Fixture timestamp parser for C5: `A` parses to 5, `B` to 3,
everything else is unparseable. -/
def c5parse : String → Option Int :=
  fun s => if s = "A" then some 5 else if s = "B" then some 3 else none

/-- Fixture multi-box request for C5 with an unparseable to-date. -/
def c5badMulti : MultiRequest :=
  ⟨some "zzz", none, none, some "Temperatur", some "b1", none, none⟩

/-- Fixture single-sensor request for C5 with an unparseable to-date. -/
def c5badSingle : SingleRequest := ⟨"sens1", some "zzz", none, none⟩

/-- Fixture timestamp parser for C6: only `A` parses, to 5. -/
def c6parse : String → Option Int :=
  fun s => if s = "A" then some 5 else none

/-- Fixture single-sensor request for C6 with no time parameters. -/
def c6sreq : SingleRequest := ⟨"sens1", none, none, none⟩

/-- Fixture multi-box request for C6 with no time parameters. -/
def c6mreq : MultiRequest :=
  ⟨none, none, none, some "Temperatur", some "b1", none, none⟩

/-- Fixture box for C7. -/
def c7Box : BoxDoc :=
  ⟨"b7", "Box 7", "outdoor", (1, 2), [⟨"s7", "Temperatur", "C", "X"⟩]⟩

/-- Fixture sidecar for C7. -/
def c7sensors : List (String × Row) := buildSidecar "Temperatur" [c7Box]

/-- Fixture cursor row for C7. -/
def c7row : Row :=
  [("sensor_id", JVal.str "s7"), ("createdAt", JVal.date 0),
   ("value", JVal.str "1")]

/-- The transformed C7 row. -/
def c7trans : Row :=
  [("lng", JVal.num 2), ("lat", JVal.num 1),
   ("createdAt", JVal.str "2020-01-01T00:00:00.000Z"),
   ("sensor_id", JVal.str "s7"), ("value", JVal.str "1")]

/-- The serialized C7 output. -/
def c7out : List String :=
  csvLines "," GET_DATA_MULTI_DEFAULT_COLUMNS [c7trans]

/-! ## Helper lemmas -/

theorem rowGet_rowSet_same (r : Row) (c : String) (v : JVal) :
    rowGet (rowSet r c v) c = v := by
  simp [rowSet, rowGet]

theorem rowGet_eraseKey_ne (r : Row) (c c' : String) (h : c' ≠ c) :
    rowGet (eraseKey r c) c' = rowGet r c' := by
  induction r with
  | nil => rfl
  | cons p rest ih =>
    obtain ⟨k, w⟩ := p
    by_cases hk : k = c
    · have hcc : c ≠ c' := fun hh => h hh.symm
      simp [eraseKey, hk, rowGet, hcc, ih]
    · simp [eraseKey, hk, rowGet, ih]

theorem rowGet_rowSet_ne (r : Row) (c c' : String) (v : JVal) (h : c' ≠ c) :
    rowGet (rowSet r c v) c' = rowGet r c' := by
  have : c ≠ c' := fun hh => h hh.symm
  simp [rowSet, rowGet, this, rowGet_eraseKey_ne r c c' h]

/-- The sidecar fill loop never changes a column whose incoming value is
truthy: every loop step either leaves the row unchanged or writes a
column that was falsy at that point. -/
theorem fillColumns_preserves_truthy (sensors : List (String × Row)) :
    ∀ (columns : List String) (d d' : Row) (col : String),
      (rowGet d col).truthy = true →
      fillColumns sensors columns d = .ok d' →
      rowGet d' col = rowGet d col := by
  intro columns
  induction columns with
  | nil =>
    intro d d' col ht h
    simp only [fillColumns] at h
    cases h
    rfl
  | cons c rest ih =>
    intro d d' col ht h
    simp only [fillColumns] at h
    cases htc : (rowGet d c).truthy with
    | true =>
      have hstep : fillStep sensors d c = .ok d := by
        simp [fillStep, htc]
      rw [hstep] at h
      exact ih d d' col ht h
    | false =>
      cases hl : objLookup sensors (rowGet d "sensor_id").toKey with
      | none =>
        have hstep : fillStep sensors d c = .error sidecarMissingMsg := by
          simp [fillStep, htc, hl]
        rw [hstep] at h
        cases h
      | some entry =>
        have hstep : fillStep sensors d c = .ok (rowSet d c (rowGet entry c)) := by
          simp [fillStep, htc, hl]
        rw [hstep] at h
        have hcc : col ≠ c := by
          intro hh
          rw [hh] at ht
          rw [ht] at htc
          cases htc
        have hpres : rowGet (rowSet d c (rowGet entry c)) col = rowGet d col :=
          rowGet_rowSet_ne d c col (rowGet entry c) hcc
        have ht2 : (rowGet (rowSet d c (rowGet entry c)) col).truthy = true := by
          rw [hpres]
          exact ht
        have := ih (rowSet d c (rowGet entry c)) d' col ht2 h
        rw [this, hpres]

/-- When the sidecar has no entry for the sensor identity of the row,
the fill loop fails with the modelled TypeError as soon as it reaches
any requested column whose value on the row is falsy. -/
theorem fillColumns_error_of_missing (sensors : List (String × Row)) :
    ∀ (columns : List String) (d : Row) (col : String),
      objLookup sensors (rowGet d "sensor_id").toKey = none →
      col ∈ columns →
      (rowGet d col).truthy = false →
      fillColumns sensors columns d = .error sidecarMissingMsg := by
  intro columns
  induction columns with
  | nil =>
    intro d col _ hmem _
    cases hmem
  | cons c rest ih =>
    intro d col hlk hmem htc
    simp only [fillColumns]
    cases htcc : (rowGet d c).truthy with
    | false =>
      have hstep : fillStep sensors d c = .error sidecarMissingMsg := by
        simp [fillStep, htcc, hlk]
      rw [hstep]
    | true =>
      have hstep : fillStep sensors d c = .ok d := by
        simp [fillStep, htcc]
      rw [hstep]
      rcases List.mem_cons.mp hmem with hcol | hcol
      · rw [hcol] at htc
        rw [htc] at htcc
        cases htcc
      · exact ih d col hlk hcol htc

theorem contains_mem {l : List String} {s : String}
    (h : l.contains s = true) : s ∈ l := by
  simpa using h

theorem objLookup_isSome_of_mem (l : List (String × Row)) (s : String)
    (h : s ∈ sensorKeys l) : (objLookup l s).isSome = true := by
  induction l with
  | nil => cases h
  | cons p rest ih =>
    obtain ⟨k, v⟩ := p
    by_cases hk : k = s
    · simp [objLookup, hk]
    · simp only [sensorKeys, List.map_cons, List.mem_cons] at h
      rcases h with h | h
      · exact absurd h.symm hk
      · simpa [objLookup, hk] using ih h

theorem getDataMultiStorageReads_nil (parseTs : String → Option Int)
    (now : Int) (req : MultiRequest) (e : RestError)
    (h : getDataMultiPrepare parseTs now req = .error e) :
    getDataMultiStorageReads parseTs now req = [] := by
  simp [getDataMultiStorageReads, h]

theorem getDataStorageReads_nil (parseTs : String → Option Int)
    (now : Int) (req : SingleRequest) (e : RestError)
    (h : getDataPrepare parseTs now req = .error e) :
    getDataStorageReads parseTs now req = [] := by
  simp [getDataStorageReads, h]

theorem getDataMultiPrepare_error_of_window (parseTs : String → Option Int)
    (now : Int) (req : MultiRequest) (e : RestError)
    (h : resolveWindow parseTs now DAYS_15_MS req.toDateParam req.fromDateParam = .error e) :
    getDataMultiPrepare parseTs now req = .error e := by
  simp [getDataMultiPrepare, h]

theorem getDataPrepare_error_of_window (parseTs : String → Option Int)
    (now : Int) (req : SingleRequest) (e : RestError)
    (h : resolveWindow parseTs now HOURS_48_MS req.toDateParam req.fromDateParam = .error e) :
    getDataPrepare parseTs now req = .error e := by
  simp [getDataPrepare, h]

theorem getDataMultiPrepare_error_of_columns (parseTs : String → Option Int)
    (now : Int) (req : MultiRequest) (ce : RestError)
    (hc : resolveColumns req = .error ce) :
    ∃ e, getDataMultiPrepare parseTs now req = .error e := by
  cases hw : resolveWindow parseTs now DAYS_15_MS req.toDateParam req.fromDateParam with
  | error e => exact ⟨e, by simp [getDataMultiPrepare, hw]⟩
  | ok ft =>
    obtain ⟨f, t⟩ := ft
    exact ⟨ce, by simp [getDataMultiPrepare, hw, hc]⟩

theorem getDataMultiPrepare_error_of_selector (parseTs : String → Option Int)
    (now : Int) (req : MultiRequest) (se : RestError)
    (hs : resolveSelector req = .error se) :
    ∃ e, getDataMultiPrepare parseTs now req = .error e := by
  cases hw : resolveWindow parseTs now DAYS_15_MS req.toDateParam req.fromDateParam with
  | error e => exact ⟨e, by simp [getDataMultiPrepare, hw]⟩
  | ok ft =>
    obtain ⟨f, t⟩ := ft
    cases hc : resolveColumns req with
    | error ce => exact ⟨ce, by simp [getDataMultiPrepare, hw, hc]⟩
    | ok cols =>
      cases hp : resolvePhenomenon req with
      | error pe => exact ⟨pe, by simp [getDataMultiPrepare, hw, hc, hp]⟩
      | ok ph => exact ⟨se, by simp [getDataMultiPrepare, hw, hc, hp, hs]⟩

theorem transformRows_length (iso : JVal → String)
    (sensors : List (String × Row)) (columns : List String) :
    ∀ (rows rows2 : List Row),
      transformRows iso sensors columns rows = .ok rows2 →
      rows2.length = rows.length := by
  intro rows
  induction rows with
  | nil =>
    intro rows2 h
    simp only [transformRows] at h
    cases h
    rfl
  | cons r rest ih =>
    intro rows2 h
    simp only [transformRows] at h
    cases hr : multiRowTransform iso sensors columns r with
    | error e => rw [hr] at h; cases h
    | ok r2 =>
      rw [hr] at h
      cases hrest : transformRows iso sensors columns rest with
      | error e => rw [hrest] at h; cases h
      | ok rest2 =>
        rw [hrest] at h
        cases h
        simp [ih rest2 hrest]

/-! ## Claim theorems -/

/-- Claim C1, counterexample: the claim says a column already present on
the raw row is never overwritten by the sidecar.  On the concrete row
`c1RawRow` the column `value` is present (holding the empty string),
yet the transform overwrites it with the `value` field of the matching
Sidecar Entry (undefined), because line 416 tests JavaScript truthiness
(`!data[col]`) rather than key presence. -/
theorem C1_present_column_overwritten :
    rowHas c1RawRow "value" = true ∧
    multiRowTransform isoFixed c1Sidecar GET_DATA_MULTI_DEFAULT_COLUMNS c1RawRow
      = .ok c1OutRow ∧
    rowGet c1OutRow "value" ≠ rowGet c1RawRow "value" :=
  ⟨by decide, rfl, by decide⟩

/-- Claim C1 (amended): in the multi-box export row transform, a
requested column other than `createdAt` whose value on the incoming raw
row is truthy (any non-empty string, non-zero number or Date) is never
overwritten by the sidecar fill; only falsy columns (absent, undefined,
null, empty string, zero) are filled from the Sidecar Entry. -/
theorem C1_truthy_column_never_overwritten (iso : JVal → String)
    (sensors : List (String × Row)) (columns : List String)
    (data out : Row) (col : String) (hc : col ≠ "createdAt")
    (ht : (rowGet data col).truthy = true)
    (h : multiRowTransform iso sensors columns data = .ok out) :
    rowGet out col = rowGet data col := by
  unfold multiRowTransform at h
  have h2 : rowGet (rowSet data "createdAt" (.str (iso (rowGet data "createdAt")))) col
      = rowGet data col :=
    rowGet_rowSet_ne data "createdAt" col _ hc
  have ht2 : (rowGet (rowSet data "createdAt" (.str (iso (rowGet data "createdAt")))) col).truthy = true := by
    rw [h2]
    exact ht
  have h3 := fillColumns_preserves_truthy sensors columns _ out col ht2 h
  rw [h3, h2]

/-- Claim C1 witness: the amended theorem applied to the concrete row
`c1WitnessRow`, whose `value` is the truthy string 23.5 and survives
the transform unchanged. -/
theorem C1_truthy_column_never_overwritten_witness :
    rowGet c1WitnessOut "value" = rowGet c1WitnessRow "value" :=
  C1_truthy_column_never_overwritten isoFixed c1Sidecar
    GET_DATA_MULTI_DEFAULT_COLUMNS c1WitnessRow c1WitnessOut "value"
    (by decide) (by decide) rfl

/-- Claim C2, counterexample: the claim says a row whose sensor identity
has no Sidecar Entry would be surfaced as a fatal pipeline error.  On
the concrete row `c2row`, processed under the empty sidecar with the
legal requested column set `createdAt, value` (accepted by the columns
validation, first conjunct), every requested column is truthy on the
row, so the transform never consults the sidecar and emits the row
without any error. -/
theorem C2_missing_entry_not_fatal :
    resolveColumns c2req = .ok ["createdAt", "value"] ∧
    objLookup (buildSidecar "Temperatur" []) (rowGet c2row "sensor_id").toKey = none ∧
    multiRowTransform isoFixed (buildSidecar "Temperatur" [])
      ["createdAt", "value"] c2row = .ok c2OutRow :=
  ⟨rfl, rfl, rfl⟩

/-- Claim C2 (amended): (a) every row matching the multi-box cursor
predicate has a Sidecar Entry for its sensor identity, because the
cursor predicate restricts `sensor_id` to the sidecar keys; (b) a row
whose sensor identity has no Sidecar Entry surfaces the fatal TypeError
whenever some requested column is falsy on the row (in particular
always under the default column set, whose lat and lng are never
present on cursor rows); it is never silently skipped — but when every
requested column is already truthy on the row such a row would be
emitted without error (see the counterexample). -/
theorem C2_cursor_rows_covered_and_missing_entry_fatal
    (sensors : List (String × Row)) (fromDate toDate : Int) :
    (∀ row : Row,
      matchesMultiCursor (sensorKeys sensors) fromDate toDate row = true →
      (objLookup sensors (rowGet row "sensor_id").toKey).isSome = true) ∧
    (∀ (columns : List String) (d : Row) (col : String),
      objLookup sensors (rowGet d "sensor_id").toKey = none →
      col ∈ columns →
      (rowGet d col).truthy = false →
      fillColumns sensors columns d = .error sidecarMissingMsg) := by
  constructor
  · intro row hm
    unfold matchesMultiCursor at hm
    cases hv : rowGet row "sensor_id" with
    | str s =>
      rw [hv] at hm
      have hc : (sensorKeys sensors).contains s = true :=
        ((Bool.and_eq_true _ _).mp hm).1
      exact objLookup_isSome_of_mem sensors s (contains_mem hc)
    | undef => rw [hv] at hm; simp at hm
    | null => rw [hv] at hm; simp at hm
    | num n => rw [hv] at hm; simp at hm
    | date t => rw [hv] at hm; simp at hm
  · exact fun columns d col h1 h2 h3 =>
      fillColumns_error_of_missing sensors columns d col h1 h2 h3

/-- Claim C2 witness: part (a) at a concrete matching row under the
fixture sidecar, part (b) at a concrete entry-less row asked to fill
the `lat` column. -/
theorem C2_cursor_rows_covered_witness :
    (objLookup c2wSidecar (rowGet c2wRow "sensor_id").toKey).isSome = true ∧
    fillColumns [] ["lat"] c2wRow = .error sidecarMissingMsg :=
  ⟨(C2_cursor_rows_covered_and_missing_entry_fatal c2wSidecar 0 10).1
      c2wRow (by decide),
   (C2_cursor_rows_covered_and_missing_entry_fatal [] 0 10).2
      ["lat"] c2wRow "lat" rfl (by decide) (by decide)⟩

/-- Claim C3: a multi-box export request whose columns parameter holds
any column outside the allow-list is rejected before any storage read
— the preparation phase errors and the storage trace is empty — and,
whenever the time window resolves, the error is precisely the
UnprocessableEntity `illegal columns parameter`; when no columns
parameter is given the column set defaults to createdAt, value, lat,
lng. -/
theorem C3_illegal_columns_rejected (parseTs : String → Option Int) (now : Int) :
    (∀ (req : MultiRequest) (s : String),
      req.columnsParam = some s →
      jsTrim s ≠ "" →
      (jsSplitComma s).any
        (fun c => !(GET_DATA_MULTI_ALLOWED_COLUMNS.contains c)) = true →
      (∃ e, getDataMultiPrepare parseTs now req = .error e) ∧
        getDataMultiStorageReads parseTs now req = []) ∧
    (∀ (req : MultiRequest) (s : String) (w : Int × Int),
      req.columnsParam = some s →
      jsTrim s ≠ "" →
      (jsSplitComma s).any
        (fun c => !(GET_DATA_MULTI_ALLOWED_COLUMNS.contains c)) = true →
      resolveWindow parseTs now DAYS_15_MS req.toDateParam req.fromDateParam = .ok w →
      getDataMultiPrepare parseTs now req =
        .error (.unprocessableEntity "illegal columns parameter")) ∧
    (∀ (req : MultiRequest) (q : MultiQuery),
      req.columnsParam = none →
      getDataMultiPrepare parseTs now req = .ok q →
      q.columns = GET_DATA_MULTI_DEFAULT_COLUMNS) := by
  have hcols : ∀ (req : MultiRequest) (s : String),
      req.columnsParam = some s → jsTrim s ≠ "" →
      (jsSplitComma s).any
        (fun c => !(GET_DATA_MULTI_ALLOWED_COLUMNS.contains c)) = true →
      resolveColumns req = .error (.unprocessableEntity "illegal columns parameter") := by
    intro req s hs htrim hbad
    simp [resolveColumns, hs, htrim]
    simpa using hbad
  refine ⟨?_, ?_, ?_⟩
  · intro req s hs htrim hbad
    obtain ⟨e, he⟩ :=
      getDataMultiPrepare_error_of_columns parseTs now req _ (hcols req s hs htrim hbad)
    exact ⟨⟨e, he⟩, getDataMultiStorageReads_nil parseTs now req e he⟩
  · intro req s w hs htrim hbad hw
    obtain ⟨f, t⟩ := w
    simp [getDataMultiPrepare, hw, hcols req s hs htrim hbad]
  · intro req q hnone hq
    have hc : resolveColumns req = .ok GET_DATA_MULTI_DEFAULT_COLUMNS := by
      simp [resolveColumns, hnone]
    cases hw : resolveWindow parseTs now DAYS_15_MS req.toDateParam req.fromDateParam with
    | error e =>
      rw [getDataMultiPrepare_error_of_window parseTs now req e hw] at hq
      cases hq
    | ok ft =>
      obtain ⟨f, t⟩ := ft
      cases hp : resolvePhenomenon req with
      | error e =>
        have hpe : getDataMultiPrepare parseTs now req = .error e := by
          simp [getDataMultiPrepare, hw, hc, hp]
        rw [hpe] at hq
        cases hq
      | ok ph =>
        cases hsel : resolveSelector req with
        | error e =>
          have hpe : getDataMultiPrepare parseTs now req = .error e := by
            simp [getDataMultiPrepare, hw, hc, hp, hsel]
          rw [hpe] at hq
          cases hq
        | ok sel =>
          cases hex : resolveExposure req with
          | error e =>
            have hpe : getDataMultiPrepare parseTs now req = .error e := by
              simp [getDataMultiPrepare, hw, hc, hp, hsel, hex]
            rw [hpe] at hq
            cases hq
          | ok ex =>
            have hpe : getDataMultiPrepare parseTs now req =
                .ok ⟨f, t, GET_DATA_MULTI_DEFAULT_COLUMNS, ph, sel, ex⟩ := by
              simp [getDataMultiPrepare, hw, hc, hp, hsel, hex]
            rw [hpe] at hq
            cases hq
            rfl

/-- Claim C3 witness: the concrete request `c3req` (columns
`createdAt,foo`) is rejected, with the precise column error, producing
no storage read; the concrete request `c3dreq` (no columns parameter)
resolves to the default column set. -/
theorem C3_illegal_columns_rejected_witness :
    ((∃ e, getDataMultiPrepare (fun _ => none) 0 c3req = .error e) ∧
      getDataMultiStorageReads (fun _ => none) 0 c3req = []) ∧
    getDataMultiPrepare (fun _ => none) 0 c3req =
      .error (.unprocessableEntity "illegal columns parameter") ∧
    c3dquery.columns = GET_DATA_MULTI_DEFAULT_COLUMNS :=
  ⟨(C3_illegal_columns_rejected (fun _ => none) 0).1 c3req "createdAt,foo"
      rfl (by decide) (by decide),
   (C3_illegal_columns_rejected (fun _ => none) 0).2.1 c3req "createdAt,foo"
      (0 - DAYS_15_MS, 0) rfl (by decide) (by decide) rfl,
   (C3_illegal_columns_rejected (fun _ => none) 10).2.2 c3dreq c3dquery rfl rfl⟩

/-- Claim C4: exactly one of the box-id list and the bounding box must
be present (in the JavaScript-truthiness sense of lines 347-349) — a
request with both is rejected by the selector check with
`please specify only boxId or bbox`, a request with neither with
`please specify either boxId or bbox`, and in each case the
preparation phase errors and no storage read occurs. -/
theorem C4_boxid_bbox_exclusive (parseTs : String → Option Int) (now : Int) :
    (∀ req : MultiRequest,
      boxIdTruthy req.boxId = true → req.bbox.isSome = true →
      resolveSelector req = .error (.badRequest "please specify only boxId or bbox") ∧
      (∃ e, getDataMultiPrepare parseTs now req = .error e) ∧
      getDataMultiStorageReads parseTs now req = []) ∧
    (∀ req : MultiRequest,
      req.boxId = none → req.bbox = none →
      resolveSelector req = .error (.badRequest "please specify either boxId or bbox") ∧
      (∃ e, getDataMultiPrepare parseTs now req = .error e) ∧
      getDataMultiStorageReads parseTs now req = []) := by
  constructor
  · intro req h1 h2
    have hsel : resolveSelector req =
        .error (.badRequest "please specify only boxId or bbox") := by
      simp [resolveSelector, h1, h2]
    obtain ⟨e, he⟩ := getDataMultiPrepare_error_of_selector parseTs now req _ hsel
    exact ⟨hsel, ⟨e, he⟩, getDataMultiStorageReads_nil parseTs now req e he⟩
  · intro req h1 h2
    have hsel : resolveSelector req =
        .error (.badRequest "please specify either boxId or bbox") := by
      simp [resolveSelector, h1, h2, boxIdTruthy]
    obtain ⟨e, he⟩ := getDataMultiPrepare_error_of_selector parseTs now req _ hsel
    exact ⟨hsel, ⟨e, he⟩, getDataMultiStorageReads_nil parseTs now req e he⟩

/-- Claim C4 witness: the concrete request with both boxId and bbox and
the concrete request with neither are each rejected without any
storage read. -/
theorem C4_boxid_bbox_exclusive_witness :
    (resolveSelector c4bothReq =
        .error (.badRequest "please specify only boxId or bbox") ∧
      (∃ e, getDataMultiPrepare (fun _ => none) 0 c4bothReq = .error e) ∧
      getDataMultiStorageReads (fun _ => none) 0 c4bothReq = []) ∧
    (resolveSelector c4neitherReq =
        .error (.badRequest "please specify either boxId or bbox") ∧
      (∃ e, getDataMultiPrepare (fun _ => none) 0 c4neitherReq = .error e) ∧
      getDataMultiStorageReads (fun _ => none) 0 c4neitherReq = []) :=
  ⟨(C4_boxid_bbox_exclusive (fun _ => none) 0).1 c4bothReq (by decide) rfl,
   (C4_boxid_bbox_exclusive (fun _ => none) 0).2 c4neitherReq rfl rfl⟩

/-- Claim C5: time-window resolution fails whenever `from` is not
strictly before `to` — the validator errors on every non-increasing
pair, every successfully resolved window satisfies from strictly
before to, a pair of parseable explicit bounds is passed through
unchanged (never clamped or auto-corrected) or rejected, and a window
error makes both export preparations fail with no storage read. -/
theorem C5_window_validation (parseTs : String → Option Int) (now deltaMs : Int) :
    (∀ toDate fromDate : Int, ¬ fromDate < toDate →
      validateTimeParameters toDate fromDate = some (.invalidArgument timeFrameMsg)) ∧
    (∀ (toParam fromParam : Option String) (w : Int × Int),
      resolveWindow parseTs now deltaMs toParam fromParam = .ok w → w.1 < w.2) ∧
    (∀ (sTo sFrom : String) (t f : Int),
      parseTs sTo = some t → parseTs sFrom = some f →
      resolveWindow parseTs now deltaMs (some sTo) (some sFrom) =
        if f < t then .ok (f, t) else .error (.invalidArgument timeFrameMsg)) ∧
    (∀ (req : MultiRequest) (e : RestError),
      resolveWindow parseTs now DAYS_15_MS req.toDateParam req.fromDateParam = .error e →
      getDataMultiPrepare parseTs now req = .error e ∧
      getDataMultiStorageReads parseTs now req = []) ∧
    (∀ (req : SingleRequest) (e : RestError),
      resolveWindow parseTs now HOURS_48_MS req.toDateParam req.fromDateParam = .error e →
      getDataPrepare parseTs now req = .error e ∧
      getDataStorageReads parseTs now req = []) := by
  refine ⟨?_, ?_, ?_, ?_, ?_⟩
  · intro toDate fromDate h
    simp [validateTimeParameters, h]
  · intro toParam fromParam w h
    obtain ⟨w1, w2⟩ := w
    cases h1 : parseTimeParameter parseTs toParam now with
    | error e => simp [resolveWindow, h1] at h
    | ok toDate =>
      cases h2 : parseTimeParameter parseTs fromParam (toDate - deltaMs) with
      | error e => simp [resolveWindow, h1, h2] at h
      | ok fromDate =>
        by_cases hv : fromDate < toDate
        · simp [resolveWindow, h1, h2, validateTimeParameters, hv] at h
          obtain ⟨he1, he2⟩ := h
          simp only []
          omega
        · simp [resolveWindow, h1, h2, validateTimeParameters, hv] at h
  · intro sTo sFrom t f ht hf
    by_cases hv : f < t
    · simp [resolveWindow, parseTimeParameter, ht, hf, validateTimeParameters, hv]
    · simp [resolveWindow, parseTimeParameter, ht, hf, validateTimeParameters, hv]
  · intro req e h
    have hp := getDataMultiPrepare_error_of_window parseTs now req e h
    exact ⟨hp, getDataMultiStorageReads_nil parseTs now req e hp⟩
  · intro req e h
    have hp := getDataPrepare_error_of_window parseTs now req e h
    exact ⟨hp, getDataStorageReads_nil parseTs now req e hp⟩

/-- Claim C5 witness: the validator rejects the concrete equal pair
(3, 3); a concretely resolved default window is strictly increasing; a
parseable explicit pair resolves to exactly the parsed bounds; and the
concrete requests with an unparseable to-date fail before any storage
read in both exports. -/
theorem C5_window_validation_witness :
    validateTimeParameters 3 3 = some (.invalidArgument timeFrameMsg) ∧
    ((8 : Int), (10 : Int)).1 < ((8 : Int), (10 : Int)).2 ∧
    resolveWindow c5parse 10 2 (some "A") (some "B") =
      (if (3 : Int) < 5 then .ok ((3 : Int), (5 : Int))
       else .error (.invalidArgument timeFrameMsg)) ∧
    (getDataMultiPrepare c5parse 0 c5badMulti =
        .error (.unprocessableEntity "Invalid date format") ∧
      getDataMultiStorageReads c5parse 0 c5badMulti = []) ∧
    (getDataPrepare c5parse 0 c5badSingle =
        .error (.unprocessableEntity "Invalid date format") ∧
      getDataStorageReads c5parse 0 c5badSingle = []) :=
  ⟨(C5_window_validation c5parse 10 2).1 3 3 (by decide),
   (C5_window_validation c5parse 10 2).2.1 none none (8, 10) rfl,
   (C5_window_validation c5parse 10 2).2.2.1 "A" "B" 5 3 rfl rfl,
   (C5_window_validation c5parse 0 0).2.2.2.1 c5badMulti
      (.unprocessableEntity "Invalid date format") rfl,
   (C5_window_validation c5parse 0 0).2.2.2.2 c5badSingle
      (.unprocessableEntity "Invalid date format") rfl⟩

/-- Claim C6: with both time parameters omitted the single-sensor
export resolves its window to the 48 hours ending at `now` and the
multi-box export to the 15 days ending at `now`, each anchored at
resolution time; and with only a to-date given, the from-date default
is anchored at the resolved to-date. -/
theorem C6_default_windows (parseTs : String → Option Int) (now : Int) :
    (∀ req : SingleRequest, req.toDateParam = none → req.fromDateParam = none →
      resolveWindow parseTs now HOURS_48_MS req.toDateParam req.fromDateParam =
        .ok (now - HOURS_48_MS, now)) ∧
    (∀ req : MultiRequest, req.toDateParam = none → req.fromDateParam = none →
      resolveWindow parseTs now DAYS_15_MS req.toDateParam req.fromDateParam =
        .ok (now - DAYS_15_MS, now)) ∧
    (∀ (s : String) (t : Int), parseTs s = some t →
      resolveWindow parseTs now HOURS_48_MS (some s) none =
        .ok (t - HOURS_48_MS, t)) ∧
    (∀ (s : String) (t : Int), parseTs s = some t →
      resolveWindow parseTs now DAYS_15_MS (some s) none =
        .ok (t - DAYS_15_MS, t)) := by
  have h48 : ∀ x : Int, x - HOURS_48_MS < x := by
    intro x
    unfold HOURS_48_MS
    omega
  have h15 : ∀ x : Int, x - DAYS_15_MS < x := by
    intro x
    unfold DAYS_15_MS
    omega
  refine ⟨?_, ?_, ?_, ?_⟩
  · intro req h1 h2
    rw [h1, h2]
    simp [resolveWindow, parseTimeParameter, validateTimeParameters, h48 now]
  · intro req h1 h2
    rw [h1, h2]
    simp [resolveWindow, parseTimeParameter, validateTimeParameters, h15 now]
  · intro s t ht
    simp [resolveWindow, parseTimeParameter, ht, validateTimeParameters, h48 t]
  · intro s t ht
    simp [resolveWindow, parseTimeParameter, ht, validateTimeParameters, h15 t]

/-- Claim C6 witness: the default windows at the concrete instant
1000000000000 and the to-date-anchored defaults for the concrete
parseable bound `A`. -/
theorem C6_default_windows_witness :
    resolveWindow (fun _ => none) 1000000000000 HOURS_48_MS
        c6sreq.toDateParam c6sreq.fromDateParam =
      .ok (1000000000000 - HOURS_48_MS, 1000000000000) ∧
    resolveWindow (fun _ => none) 1000000000000 DAYS_15_MS
        c6mreq.toDateParam c6mreq.fromDateParam =
      .ok (1000000000000 - DAYS_15_MS, 1000000000000) ∧
    resolveWindow c6parse 0 HOURS_48_MS (some "A") none =
      .ok (5 - HOURS_48_MS, 5) ∧
    resolveWindow c6parse 0 DAYS_15_MS (some "A") none =
      .ok (5 - DAYS_15_MS, 5) :=
  ⟨(C6_default_windows (fun _ => none) 1000000000000).1 c6sreq rfl rfl,
   (C6_default_windows (fun _ => none) 1000000000000).2.1 c6mreq rfl rfl,
   (C6_default_windows c6parse 0).2.2.1 "A" 5 rfl,
   (C6_default_windows c6parse 0).2.2.2 "A" 5 rfl⟩

/-- Claim C7: a multi-box CSV export of N stored rows yields exactly
N+1 lines — the header of column names followed by one line per
record — with fields in exactly the requested column order; the
single-sensor CSV export likewise yields N+1 lines over its fixed
`createdAt, value` column pair. -/
theorem C7_csv_shape (iso : JVal → String) (delim : String)
    (sensors : List (String × Row)) (columns : List String)
    (rows rows2 : List Row) (out : List String)
    (h : transformRows iso sensors columns rows = .ok rows2)
    (ho : multiExportLines iso delim sensors columns rows = .ok out) :
    out.length = rows.length + 1 ∧
    out.head? = some (String.intercalate delim columns) ∧
    out.tail = rows2.map (fun r =>
      String.intercalate delim (columns.map (fun c => jvalToField (rowGet r c)))) ∧
    (singleExportLines iso delim rows).length = rows.length + 1 := by
  unfold multiExportLines at ho
  rw [h] at ho
  cases ho
  refine ⟨?_, rfl, rfl, ?_⟩
  · simp [csvLines, transformRows_length iso sensors columns rows rows2 h]
  · simp [singleExportLines, csvLines]

/-- Claim C7 witness: the one-row concrete export produces two lines,
the header first, the serialized record second, in the default column
order. -/
theorem C7_csv_shape_witness :
    c7out.length = [c7row].length + 1 ∧
    c7out.head? = some (String.intercalate "," GET_DATA_MULTI_DEFAULT_COLUMNS) ∧
    c7out.tail = [c7trans].map (fun r =>
      String.intercalate ","
        (GET_DATA_MULTI_DEFAULT_COLUMNS.map (fun c => jvalToField (rowGet r c)))) ∧
    (singleExportLines isoFixed "," [c7row]).length = [c7row].length + 1 :=
  C7_csv_shape isoFixed "," c7sensors GET_DATA_MULTI_DEFAULT_COLUMNS
    [c7row] [c7trans] c7out rfl rfl

/-- Claim C8: an ingestion request whose body fails to decode is
answered with UnprocessableEntity carrying the decode message and no
storage interaction is attempted — neither a box lookup nor a
measurement save — for both the batch handler and the
single-measurement handler. -/
theorem C8_decode_failure_no_storage (β : Type)
    (handlers : String → Option (β → Except String (List RawMeasurement)))
    (findBoxById : String → Bool) (contentType : String)
    (pathParts : List String) (body : β) (e : String)
    (jsonDecode : List RawMeasurement → Except String (List RawMeasurement))
    (boxId sensorId : String) (value createdAt : Option String) :
    (∀ handler, handlers (jsToLower contentType) = some handler →
      handler body = .error e →
      postNewMeasurements handlers findBoxById contentType pathParts body =
        (.rejected (.unprocessableEntity e), [])) ∧
    (jsonDecode [⟨sensorId, value, createdAt⟩] = .error e →
      postNewMeasurement jsonDecode findBoxById boxId sensorId value createdAt =
        (.rejected (.unprocessableEntity e), [])) := by
  constructor
  · intro handler hh hd
    simp [postNewMeasurements, hh, hd]
  · intro hd
    simp [postNewMeasurement, hd]

/-- Claim C8 witness: concrete failing decoders make both handlers
answer UnprocessableEntity with an empty storage trace. -/
theorem C8_decode_failure_no_storage_witness :
    postNewMeasurements (fun _ => some (fun _ => .error "decode failure"))
        (fun _ => true) "application/json" ["", "boxes", "b1", "data"]
        ([] : List RawMeasurement) =
      (.rejected (.unprocessableEntity "decode failure"), []) ∧
    postNewMeasurement (fun _ => .error "decode failure") (fun _ => true)
        "b1" "s1" (some "23.5") none =
      (.rejected (.unprocessableEntity "decode failure"), []) :=
  ⟨(C8_decode_failure_no_storage (List RawMeasurement)
      (fun _ => some (fun _ => .error "decode failure")) (fun _ => true)
      "application/json" ["", "boxes", "b1", "data"] [] "decode failure"
      (fun _ => .error "decode failure") "b1" "s1" (some "23.5") none).1
      (fun _ => .error "decode failure") rfl rfl,
   (C8_decode_failure_no_storage (List RawMeasurement)
      (fun _ => some (fun _ => .error "decode failure")) (fun _ => true)
      "application/json" ["", "boxes", "b1", "data"] [] "decode failure"
      (fun _ => .error "decode failure") "b1" "s1" (some "23.5") none).2 rfl⟩

/-- Claim C9: the two exports treat the window boundaries differently —
for any timestamp exactly at the from or to bound of a well-ordered
window, the single-sensor query filter (inclusive gte/lte, line 277)
includes it while the multi-box query filter (strict gt/lt,
lines 436-439) excludes it. -/
theorem C9_bound_inclusion_disagreement (fromDate toDate t : Int)
    (hw : fromDate ≤ toDate) (hb : t = fromDate ∨ t = toDate) :
    singleTimeWindow fromDate toDate t = true ∧
    multiTimeWindow fromDate toDate t = false := by
  rcases hb with rfl | rfl <;>
    constructor <;>
      simp [singleTimeWindow, multiTimeWindow] <;>
        omega

/-- Claim C9 witness: the timestamp 0 sitting exactly on the from
bound of the window (0, 10) is included by the single-sensor filter
and excluded by the multi-box filter. -/
theorem C9_bound_inclusion_disagreement_witness :
    singleTimeWindow 0 10 0 = true ∧ multiTimeWindow 0 10 0 = false :=
  C9_bound_inclusion_disagreement 0 10 0 (by decide) (Or.inl rfl)

/-- Claim C10: every Sidecar Entry takes the exported `lat` from
`coordinates[0]` and `lng` from `coordinates[1]` (lines 398-399),
which is the opposite assignment from the single-box geojson view of
`findBox` (lines 856-857, `lat` from `coordinates[1]`, `lng` from
`coordinates[0]`); hence the multi-box lat/lng pair is the single-box
pair with the two components swapped. -/
theorem C10_sidecar_latlng_swapped (b : BoxDoc) (s : SensorDoc) :
    rowGet (sidecarEntry b s) "lat" = .num b.coordinates.1 ∧
    rowGet (sidecarEntry b s) "lng" = .num b.coordinates.2 ∧
    rowGet (findBoxGeojson b) "lat" = .num b.coordinates.2 ∧
    rowGet (findBoxGeojson b) "lng" = .num b.coordinates.1 ∧
    rowGet (sidecarEntry b s) "lat" = rowGet (findBoxGeojson b) "lng" ∧
    rowGet (sidecarEntry b s) "lng" = rowGet (findBoxGeojson b) "lat" :=
  ⟨rfl, rfl, rfl, rfl, rfl, rfl⟩

end OSeM
